import Mathlib

/-!
Shallow embedding of the PE106-PostImagenDSforTelegram service and proofs about it.

Strings are modelled as `List Char`; wall-clock times (Python `time.time()`)
as rationals; Python dictionaries as functions into `Option`.
-/

/-- Python whitespace predicate used by `str.strip()`: the characters for
which `str.isspace()` holds, i.e. U+0009-U+000D, U+001C-U+001F, the space,
U+0085, U+00A0, U+1680, U+2000-U+200A, U+2028, U+2029, U+202F, U+205F and
U+3000. -/
def pyIsSpace (c : Char) : Bool :=
  let n := c.toNat
  (9 ≤ n && n ≤ 13) || (28 ≤ n && n ≤ 32) || n == 133 || n == 160 ||
    n == 5760 || (8192 ≤ n && n ≤ 8202) || n == 8232 || n == 8233 ||
    n == 8239 || n == 8287 || n == 12288

/-- Python `s.lstrip()` with no argument: drop leading whitespace. -/
def pyLstripWs (s : List Char) : List Char :=
  s.dropWhile pyIsSpace

/-- Python `s.rstrip()` with no argument: drop trailing whitespace. -/
def pyRstripWs (s : List Char) : List Char :=
  (s.reverse.dropWhile pyIsSpace).reverse

/-- Python `s.strip()` with no argument. -/
def pyStrip (s : List Char) : List Char :=
  pyRstripWs (pyLstripWs s)

/-- Python `s.lstrip(chars)`: drop leading characters belonging to `cs`. -/
def pyLstripChars (cs : List Char) (s : List Char) : List Char :=
  s.dropWhile (fun c => cs.contains c)

/-- Python `s.split(sep, 1)` for a nonempty separator, returning the two parts
when the separator occurs (at its first occurrence) and `none` otherwise. -/
def splitOnce (sep : List Char) : List Char → Option (List Char × List Char)
  | [] => if sep.isPrefixOf ([] : List Char) then some ([], []) else none
  | c :: rest =>
    if sep.isPrefixOf (c :: rest) then some ([], (c :: rest).drop sep.length)
    else (splitOnce sep rest).map (fun p => (c :: p.1, p.2))

/-! ## Content generator (src/app/generators.py) -/

/-- Outcome of one `requests.post` call to the DeepSeek endpoint, as seen by
`generate_with_deepseek` (src/app/generators.py lines 52-79): a timeout
exception, another request exception, or a JSON payload whose
`choices[0].message.content` field is modelled by an `Option` (`none` for a
missing/empty `choices` or `message`, mirroring the falsiness test on line 64;
an empty string content is the `some []` case, also falsy). -/
inductive DeepSeekAttempt
  | timeout (msg : List Char)
  | reqErr (msg : List Char)
  | response (content : Option (List Char))
deriving DecidableEq

/-- Python exceptions that can escape `generate_with_deepseek`. -/
inductive PyExc
  | timeout (msg : List Char)
  | reqErr (msg : List Char)
deriving DecidableEq

/-- Python `str(e)` on an exception escaping `generate_with_deepseek`. -/
def PyExc.str : PyExc → List Char
  | .timeout m => m
  | .reqErr m => m

/-- Result of `generate_with_deepseek`: a normal return (`ok`, carrying `None`
or the stripped content string) or a propagated exception. -/
inductive GenOutcome
  | ok (content : Option (List Char))
  | raised (e : PyExc)
deriving DecidableEq

/-- Observable trace of the retry loop in `generate_with_deepseek`
(src/app/generators.py lines 52-79): how many `requests.post` calls were made,
the `time.sleep` pauses performed between consecutive attempts, and the final
outcome. -/
structure LoopTrace where
  calls : Nat
  sleeps : List Nat
  outcome : GenOutcome
deriving DecidableEq

/-- The retry loop of `generate_with_deepseek` starting at loop index
`attempt`, driven by the sequence `attempts` of per-call outcomes.  Mirrors
`for attempt in range(3)`: on `Timeout`, if `attempt < 2` it sleeps 2 seconds
and retries, otherwise re-raises; on other `RequestException` it re-raises at
once; on a response it validates the payload shape (returning `None` on a
malformed payload) and otherwise returns the stripped content. -/
def deepseekAttemptsFrom (attempts : Nat → DeepSeekAttempt) (attempt : Nat) : LoopTrace :=
  match attempts attempt with
  | .timeout m =>
    if _h : attempt < 2 then
      let rest := deepseekAttemptsFrom attempts (attempt + 1)
      ⟨rest.calls + 1, 2 :: rest.sleeps, rest.outcome⟩
    else ⟨1, [], .raised (.timeout m)⟩
  | .reqErr m => ⟨1, [], .raised (.reqErr m)⟩
  | .response c =>
    match c with
    | none => ⟨1, [], .ok none⟩
    | some s => if s = [] then ⟨1, [], .ok none⟩ else ⟨1, [], .ok (some (pyStrip s))⟩
termination_by 3 - attempt
decreasing_by omega

/-- `ContentGenerator.generate_with_deepseek` (src/app/generators.py lines
38-79) as a function of the sequence of per-call outcomes. -/
def generate_with_deepseek (attempts : Nat → DeepSeekAttempt) : LoopTrace :=
  deepseekAttemptsFrom attempts 0

/-- The label `"Заголовок:"` searched for on line 113 of src/app/generators.py. -/
def titleLabel : List Char := ("Заголовок:").data

/-- The label `"Мета-описание:"` searched for on line 115 of src/app/generators.py. -/
def metaLabel : List Char := ("Мета-описание:").data

/-- The label `"Контент:"` searched for on line 117 of src/app/generators.py. -/
def contentLabel : List Char := ("Контент:").data

/-- The character set of `lstrip('*# ')` on lines 121-123 of src/app/generators.py. -/
def markChars : List Char := ['*', '#', ' ']

/-- Python `s.split("\n", 1)[0]`: everything up to the first newline, or the
whole string when it has no newline. -/
def splitFirstLine (s : List Char) : List Char :=
  match splitOnce ['\n'] s with
  | some p => p.1
  | none => s

/-- The extraction `full_content.split(label, 1)[1].split("\n", 1)[0].strip()`
guarded by `if label in full_content` (src/app/generators.py lines 113-116);
the parse variables are initialised to `""` on lines 108-110. -/
def extractLabeled (label full : List Char) : List Char :=
  match splitOnce label full with
  | some p => pyStrip (splitFirstLine p.2)
  | none => []

/-- The extraction `full_content.split("Контент:", 1)[1].strip()` guarded by
the containment check (src/app/generators.py lines 117-118). -/
def extractToEnd (label full : List Char) : List Char :=
  match splitOnce label full with
  | some p => pyStrip p.2
  | none => []

/-- The cleanup `s.strip().lstrip('*# ').strip()` applied on lines 121-123 of
src/app/generators.py. -/
def cleanupField (s : List Char) : List Char :=
  pyStrip (pyLstripChars markChars (pyStrip s))

/-- The parsing block of `ContentGenerator.generate_post`
(src/app/generators.py lines 107-123): extract title, meta description and
content from the labelled response text, then clean each field up. -/
def parse_post_fields (full : List Char) : List Char × List Char × List Char :=
  (cleanupField (extractLabeled titleLabel full),
   cleanupField (extractLabeled metaLabel full),
   cleanupField (extractToEnd contentLabel full))

/-- The dictionary returned by `ContentGenerator.generate_post`. -/
structure PostDict where
  topic : List Char
  title : List Char
  meta_description : List Char
  post_content : List Char
deriving DecidableEq

/-- Fallback title `f"Пост на тему: {topic}"` (src/app/generators.py line 127). -/
def fallbackTitle (topic : List Char) : List Char :=
  ("Пост на тему: ").data ++ topic

/-- Title `"Ошибка генерации"` of the failure dictionaries
(src/app/generators.py lines 102 and 136). -/
def errorTitle : List Char := ("Ошибка генерации").data

/-- Body `"Не удалось получить данные от DeepSeek API"` of the
missing-content dictionary (src/app/generators.py line 104). -/
def noDataMsg : List Char := ("Не удалось получить данные от DeepSeek API").data

/-- Prefix `"Произошла ошибка: "` of the exception dictionary body
(src/app/generators.py line 138). -/
def errPre : List Char := ("Произошла ошибка: ").data

/-- `ContentGenerator.generate_post` (src/app/generators.py lines 81-139) as a
function of the topic and of the outcome of the `generate_with_deepseek` call.
The surrounding `try`/`except Exception` catches every exception raised inside
(lines 132-139), so the function always returns a dictionary: a raised
generation error becomes the `"Ошибка генерации"` dictionary with the
exception text in `post_content`; a falsy `full_content` (`None` or `""`)
becomes the `"Ошибка генерации"`/`"Не удалось получить данные"` dictionary
(lines 99-105); otherwise the response is parsed and the title falls back to
`"Пост на тему: ..."` when empty (line 127). -/
def generate_post (topic : List Char) (gen : GenOutcome) : PostDict :=
  match gen with
  | .raised e => ⟨topic, errorTitle, [], errPre ++ e.str⟩
  | .ok none => ⟨topic, errorTitle, [], noDataMsg⟩
  | .ok (some full) =>
    if full = [] then ⟨topic, errorTitle, [], noDataMsg⟩
    else
      let f := parse_post_fields full
      ⟨topic, if f.1 = [] then fallbackTitle topic else f.1, f.2.1, f.2.2⟩

/-- HTTP response of the `POST /generate` handler: a 200 response carrying the
payload, or the 500 error envelope raised on line 402-405 of src/app/main.py. -/
inductive RouteResponse
  | ok200 (payload : PostDict)
  | err500 (error : List Char) (details : List Char)
deriving DecidableEq

/-- HTTP status code of a `RouteResponse`. -/
def statusOf : RouteResponse → Nat
  | .ok200 _ => 200
  | .err500 _ _ => 500

/-- Error field `"Ошибка генерации контента"` of the handler's 500 envelope
(src/app/main.py line 404). -/
def genErrorLabel : List Char := ("Ошибка генерации контента").data

/-- The message of the `TypeError` raised by the call on src/app/main.py line
365: `generator.generate_post(request.topic, request.style)` passes two
positional arguments to `ContentGenerator.generate_post(self, topic)`
(src/app/generators.py line 81), which accepts only one. -/
def typeErrorMsg : List Char :=
  ("generate_post() takes 2 positional arguments but 3 were given").data

/-- The `POST /generate` route handler (src/app/main.py lines 355-405).  The
call on line 365, `generator.generate_post(request.topic, request.style)`,
passes a `style` argument that `ContentGenerator.generate_post`
(src/app/generators.py line 81) does not accept, so Python raises a
`TypeError` at the call site — before the generator body and its upstream
HTTP call can run.  The `TypeError` is caught by the handler's
`except Exception` (lines 392-405) and converted to the 500 envelope
`{"error": "Ошибка генерации контента", "details": str(e)}`.  The upstream
outcome `gen` that the generator would have seen is therefore never
consulted. -/
def route_generate_post (topic style : List Char) (gen : GenOutcome) : RouteResponse :=
  RouteResponse.err500 genErrorLabel typeErrorMsg

/-! ## Rate limiter (src/app/rate_limiter.py) -/

/-- State of `RateLimiter` (src/app/rate_limiter.py lines 11-18): the two
configured ceilings and, per client identifier, the two timestamp lists held
in the `defaultdict(list)` maps (absent clients map to `[]`). -/
structure RateLimiter where
  requests_per_minute : Nat
  requests_per_hour : Nat
  minute_requests : List Char → List ℚ
  hour_requests : List Char → List ℚ

/-- A freshly constructed `RateLimiter(requests_per_minute, requests_per_hour)`. -/
def initRL (m h : Nat) : RateLimiter :=
  ⟨m, h, fun _ => [], fun _ => []⟩

/-- `RateLimiter._cleanup_old_requests` (src/app/rate_limiter.py lines 20-32):
keep, for the given client, only minute timestamps with
`current_time - req_time < 60` and hour timestamps with
`current_time - req_time < 3600`. -/
def RateLimiter.cleanup_old_requests (rl : RateLimiter) (client_id : List Char)
    (current_time : ℚ) : RateLimiter :=
  { rl with
    minute_requests := fun c =>
      if c = client_id then (rl.minute_requests c).filter (fun t => current_time - t < 60)
      else rl.minute_requests c,
    hour_requests := fun c =>
      if c = client_id then (rl.hour_requests c).filter (fun t => current_time - t < 3600)
      else rl.hour_requests c }

/-- Return value of `RateLimiter.is_allowed`: the boolean, the two
`remaining` quota numbers of the returned dictionary, and the limiter state
after the call. -/
structure AllowResult where
  allowed : Bool
  minute_remaining : Int
  hour_remaining : Int
  state : RateLimiter

/-- `RateLimiter.is_allowed` (src/app/rate_limiter.py lines 34-59): clean up
old timestamps, compare both window counts against the ceilings, and only when
both pass record `current_time` in both windows. -/
def RateLimiter.is_allowed (rl : RateLimiter) (client_id : List Char)
    (current_time : ℚ) : AllowResult :=
  let rl1 := rl.cleanup_old_requests client_id current_time
  let minute_count := (rl1.minute_requests client_id).length
  let hour_count := (rl1.hour_requests client_id).length
  if minute_count < rl.requests_per_minute ∧ hour_count < rl.requests_per_hour then
    { allowed := true,
      minute_remaining := (rl.requests_per_minute : Int) - minute_count - 1,
      hour_remaining := (rl.requests_per_hour : Int) - hour_count - 1,
      state :=
        { rl1 with
          minute_requests := fun c =>
            if c = client_id then rl1.minute_requests c ++ [current_time]
            else rl1.minute_requests c,
          hour_requests := fun c =>
            if c = client_id then rl1.hour_requests c ++ [current_time]
            else rl1.hour_requests c } }
  else
    { allowed := false,
      minute_remaining := max 0 ((rl.requests_per_minute : Int) - minute_count),
      hour_remaining := max 0 ((rl.requests_per_hour : Int) - hour_count),
      state := rl1 }

/-- A sequence of `is_allowed` calls for one client at the given times,
collecting the returned booleans and threading the limiter state. -/
def runCalls (rl : RateLimiter) (client : List Char) : List ℚ → List Bool × RateLimiter
  | [] => ([], rl)
  | t :: ts =>
    let r := rl.is_allowed client t
    let rest := runCalls r.state client ts
    (r.allowed :: rest.1, rest.2)

/-- The paths exempted from rate limiting by `rate_limit_middleware`
(src/app/rate_limiter.py line 85). -/
def bypassPaths : List (List Char) :=
  [("/").data, ("/docs").data, ("/openapi.json").data, ("/favicon.ico").data]

/-- Observable action of `rate_limit_middleware` on one request: the request
was forwarded without consulting the limiter (`skipped`), forwarded with
rate-limit headers (`next`), or rejected with the 429 response (`tooMany`). -/
inductive MWResult
  | skipped
  | next (minute_remaining hour_remaining : Int)
  | tooMany (minute_remaining hour_remaining : Int)

/-- `rate_limit_middleware` (src/app/rate_limiter.py lines 80-111) as a
function of the request path, the client identifier and the current time,
returning the action taken and the limiter state after the request. -/
def rate_limit_middleware (rl : RateLimiter) (path client_id : List Char)
    (now : ℚ) : MWResult × RateLimiter :=
  if path ∈ bypassPaths then (.skipped, rl)
  else
    let r := rl.is_allowed client_id now
    if r.allowed then (.next r.minute_remaining r.hour_remaining, r.state)
    else (.tooMany r.minute_remaining r.hour_remaining, r.state)

/-! ## TTL cache (src/app/cache.py) -/

/-- A Python value of underlying type `α` or Python `None`. -/
inductive PyVal (α : Type)
  | pynone
  | val (a : α)
deriving DecidableEq

/-- A cache entry of `MemoryCache` (src/app/cache.py lines 43-46): the stored
value and its absolute expiry time. -/
structure CacheEntry (α : Type) where
  value : PyVal α
  expires_at : ℚ
deriving DecidableEq

/-- `MemoryCache` (src/app/cache.py lines 11-62): the `_cache` dictionary and
the default TTL. -/
structure MemoryCache (α : Type) where
  store : List Char → Option (CacheEntry α)
  default_ttl : Nat

/-- The effective TTL chosen by `MemoryCache.set` on line 42
(`ttl = ttl or self.default_ttl`): a missing argument — and also an explicit
`0`, which is falsy — fall back to the default. -/
def effTtl {α : Type} (mc : MemoryCache α) (ttl : Option Nat) : Nat :=
  match ttl with
  | none => mc.default_ttl
  | some n => if n = 0 then mc.default_ttl else n

/-- `MemoryCache.get` (src/app/cache.py lines 27-38): a missing key reports
`None`; an entry with `time.time() > expires_at` is deleted and reported as
`None`; otherwise the stored value is returned. -/
def MemoryCache.get {α : Type} (mc : MemoryCache α) (key : List Char) (now : ℚ) :
    PyVal α × MemoryCache α :=
  match mc.store key with
  | none => (.pynone, mc)
  | some e =>
    if now > e.expires_at then
      (.pynone, { mc with store := fun k => if k = key then none else mc.store k })
    else (e.value, mc)

/-- `MemoryCache.set` (src/app/cache.py lines 40-47): store the value with
expiry `time.time() + ttl`. -/
def MemoryCache.set {α : Type} (mc : MemoryCache α) (key : List Char) (v : PyVal α)
    (ttl : Option Nat) (now : ℚ) : MemoryCache α :=
  { mc with store := fun k => if k = key then some ⟨v, now + (effTtl mc ttl : ℚ)⟩ else mc.store k }

/-- Observable outcome of one call to a function wrapped by the `cached`
decorator: the returned value, the cache state afterwards, and whether the
wrapped function was executed on this call. -/
structure CachedOut (α : Type) where
  result : PyVal α
  state : MemoryCache α
  executed : Bool

/-- One call of a function wrapped by the `cached` decorator
(src/app/cache.py lines 69-88), where `f` is the value the wrapped function
would return on this call: the wrapper consults `cache.get` and only when the
cached result `is not None` returns it without executing the function;
otherwise it executes the function, stores the result and returns it. -/
def cachedCall {α : Type} (f : PyVal α) (mc : MemoryCache α) (key : List Char)
    (ttl : Option Nat) (now : ℚ) : CachedOut α :=
  let g := mc.get key now
  match g.1 with
  | .val a => ⟨.val a, g.2, false⟩
  | .pynone => ⟨f, g.2.set key f ttl now, true⟩

/-! ## Auth store (src/app/auth.py) -/

/-- Modelled from the spec: the bcrypt-family salted password hash computed by
the external passlib `CryptContext` backend (src/app/auth.py lines 23, 65-72
delegate to it; the hash algorithm itself is not part of the repository).
Following the spec's description — "Passwords are salted-hashed
(bcrypt-family) before storage", verification recomputing the digest of the
plaintext under the stored salt — the digest is modelled as an idealized
collision-free function of the salt and the plaintext. -/
structure BcryptHash where
  salt : Nat
  digest : Nat × List Char
deriving DecidableEq

/-- `get_password_hash` (src/app/auth.py lines 70-72), with the salt that
passlib draws at random made an explicit argument. -/
def get_password_hash (password : List Char) (salt : Nat) : BcryptHash :=
  ⟨salt, (salt, password)⟩

/-- `verify_password` (src/app/auth.py lines 65-67): recompute the digest of
the plaintext under the stored salt and compare. -/
def verify_password (plain_password : List Char) (h : BcryptHash) : Bool :=
  h.digest == (h.salt, plain_password)

/-- A record of the `fake_users_db` dictionary (src/app/auth.py lines 47-62,
169-175). -/
structure UserRecord where
  username : List Char
  full_name : List Char
  email : List Char
  hashed_password : BcryptHash
  disabled : Bool
deriving DecidableEq

/-- The in-memory user table `fake_users_db`, a Python dictionary keyed by
username. -/
def UsersDb : Type := List Char → Option UserRecord

/-- `AuthService.register` (src/app/auth.py lines 162-178): reject when the
username is already present, otherwise insert a fresh record with the hashed
password and `disabled = False`.  The salt used by `get_password_hash` is an
explicit argument. -/
def register (db : UsersDb) (username email password full_name : List Char)
    (salt : Nat) : Bool × UsersDb :=
  if (db username).isSome then (false, db)
  else
    (true, fun u =>
      if u = username then
        some ⟨username, full_name, email, get_password_hash password salt, false⟩
      else db u)

/-! ## Health checker (src/app/monitoring.py) -/

/-- Outcome of running one registered probe function: a returned truth value,
or an exception with its message. -/
inductive ProbeOutcome
  | ok (result : Bool)
  | exc (msg : List Char)
deriving DecidableEq

/-- One value of the `results` dictionary built by
`HealthChecker.check_health` (src/app/monitoring.py lines 211-225): the probe
ran and produced `{'status', 'timestamp', 'details'}`, or raised and produced
`{'status': 'error', 'timestamp', 'error'}`. -/
structure CheckResultEntry where
  status : List Char
  timestamp : ℚ
  details : Option Bool
  error : Option (List Char)
deriving DecidableEq

/-- `HealthChecker` state (src/app/monitoring.py lines 185-197): the
registered checks in registration order with their intervals, and the
`last_check` dictionary (read with `.get(name, 0)`). -/
structure HealthChecker where
  checks : List (List Char × Nat)
  last_check : List Char → Option ℚ

/-- The loop body of `HealthChecker.check_health` (src/app/monitoring.py
lines 204-226) over the remaining checks: a probe whose interval has not yet
elapsed since its last run is skipped with `continue` (contributing no entry
to `results`); otherwise it is run, its entry recorded and `last_check`
updated. -/
def checkLoop (env : List Char → ProbeOutcome) (now : ℚ)
    (lc : List Char → Option ℚ) :
    List (List Char × Nat) → List (List Char × CheckResultEntry) × (List Char → Option ℚ)
  | [] => ([], lc)
  | (name, interval) :: rest =>
    if now - ((lc name).getD 0) < (interval : ℚ) then
      checkLoop env now lc rest
    else
      let entry : CheckResultEntry :=
        match env name with
        | .ok r => ⟨if r then ("healthy").data else ("unhealthy").data, now, some r, none⟩
        | .exc m => ⟨("error").data, now, none, some m⟩
      let lc2 := fun n => if n = name then some now else lc n
      let res := checkLoop env now lc2 rest
      ((name, entry) :: res.1, res.2)

/-- `HealthChecker.check_health` (src/app/monitoring.py lines 199-227), with
the behaviour of each probe function at this invocation supplied by `env`. -/
def HealthChecker.check_health (hc : HealthChecker) (env : List Char → ProbeOutcome)
    (now : ℚ) : List (List Char × CheckResultEntry) × HealthChecker :=
  let r := checkLoop env now hc.last_check hc.checks
  (r.1, { hc with last_check := r.2 })

/-! ## Concrete instances used in closed statements -/

/-- A sample exception message. -/
def wMsg : List Char := ("Request timeout").data

/-- A sample client identifier. -/
def ipW : List Char := ("1.2.3.4").data

/-- The `admin` record of the initial `fake_users_db` (src/app/auth.py lines
48-54), with an arbitrary fixed salt. -/
def adminRecW : UserRecord :=
  ⟨("admin").data, ("Administrator").data, ("admin@example.com").data,
    get_password_hash (("admin123").data) 1, false⟩

/-- A user table containing only the `admin` record. -/
def dbW : UsersDb :=
  fun u => if u = ("admin").data then some adminRecW else none

/-- A sample cache key. -/
def kW : List Char := ("k").data

/-- An empty cache over `Nat` values with the default TTL of 3600 seconds
(src/app/cache.py line 66). -/
def mcEmptyW : MemoryCache Nat := ⟨fun _ => none, 3600⟩

/-- A cache holding one entry under `kW` that expires at time 10. -/
def mcExpW : MemoryCache Nat :=
  ⟨fun k => if k = kW then some ⟨.val 7, 10⟩ else none, 3600⟩

/-- A cache holding a stored Python `None` under `kW`, expiring at time 10. -/
def mcNoneW : MemoryCache Nat :=
  ⟨fun k => if k = kW then some ⟨.pynone, 10⟩ else none, 3600⟩

/-- A health checker with one probe `database` of interval 60 seconds that
last ran at time 0. -/
def hcW : HealthChecker :=
  ⟨[(("database").data, 60)], fun n => if n = ("database").data then some 0 else none⟩

/-- An environment in which every probe returns `True`. -/
def envW : List Char → ProbeOutcome := fun _ => .ok true

/-- A rate limiter with ceilings 2/5 holding one stale and one fresh
timestamp for every client. -/
def rlStaleW : RateLimiter :=
  ⟨2, 5, fun _ => [-100, 1], fun _ => [-100, 1]⟩

/-- The labelled response text `Заголовок: X\nМета-описание: Y\nКонтент: Z`
of the spec's parsing property, assembled from the three payload strings. -/
def postTemplate (X Y Z : List Char) : List Char :=
  titleLabel ++ [' '] ++ X ++ ['\n'] ++ metaLabel ++ [' '] ++ Y ++ ['\n'] ++
    contentLabel ++ [' '] ++ Z

/-- The part of `postTemplate` preceding the meta-description label. -/
def titlePre (X : List Char) : List Char := titleLabel ++ [' '] ++ X ++ ['\n']

/-- The part of `postTemplate` preceding the content label. -/
def metaPre (X Y : List Char) : List Char :=
  titlePre X ++ metaLabel ++ [' '] ++ Y ++ ['\n']

/-! # Theorems -/

/-! ## C1 -/

/-- C1, code evaluated at the failing input: for every topic, style and
upstream outcome — in particular an upstream timeout after retries —
`POST /generate` returns the 500 envelope
`{"error": "Ошибка генерации контента", "details": <TypeError text>}`.  The
response does not depend on the upstream outcome at all (third conjunct): the
two-argument call raises `TypeError` before the upstream call can happen, so
an upstream failure can never occur during the request, let alone have its
details echoed to the client as the claim describes.  The last conjunct shows
the slip is load-bearing for the claim in the other direction too: the
generator itself converts a raised upstream failure into a normal fallback
dictionary instead of propagating it, so with the call arity repaired the
handler would answer 200, not 500. -/
theorem c1_handler_type_error (topic style : List Char) (gen gen2 : GenOutcome)
    (e : PyExc) :
    route_generate_post topic style gen = .err500 genErrorLabel typeErrorMsg ∧
    statusOf (route_generate_post topic style gen) = 500 ∧
    route_generate_post topic style gen = route_generate_post topic style gen2 ∧
    generate_post topic (.raised e) = ⟨topic, errorTitle, [], errPre ++ e.str⟩ :=
  ⟨rfl, rfl, rfl, rfl⟩

/-! ## C2 -/

/-- C2: if the text-generation HTTP call times out on every attempt, exactly 3
calls are made, a fixed 2-second pause separates consecutive attempts (two
pauses between the three attempts), and after the third timeout the timeout
exception propagates out of `generate_with_deepseek`. -/
theorem c2_timeout_retry_policy (attempts : Nat → DeepSeekAttempt)
    (m0 m1 m2 : List Char)
    (h0 : attempts 0 = .timeout m0) (h1 : attempts 1 = .timeout m1)
    (h2 : attempts 2 = .timeout m2) :
    generate_with_deepseek attempts = ⟨3, [2, 2], .raised (.timeout m2)⟩ := by
  unfold generate_with_deepseek
  rw [deepseekAttemptsFrom, h0]
  simp only [Nat.zero_lt_two, dite_true]
  rw [deepseekAttemptsFrom, h1]
  simp only [Nat.one_lt_two, dite_true]
  rw [deepseekAttemptsFrom, h2]
  simp

/-- C2, witness: the retry policy evaluated on a concrete all-timeout attempt
sequence. -/
theorem c2_timeout_retry_policy_witness :
    generate_with_deepseek (fun _ => .timeout wMsg) = ⟨3, [2, 2], .raised (.timeout wMsg)⟩ :=
  c2_timeout_retry_policy (fun _ => .timeout wMsg) wMsg wMsg wMsg rfl rfl rfl

/-! ## C8 -/

/-- C8: verifying a password against the hash of the same password succeeds,
and verifying it against the hash of a different password fails (under the
spec-modelled collision-free salted digest standing in for the external
bcrypt backend). -/
theorem c8_verify_hash (p q : List Char) (salt : Nat) (hne : p ≠ q) :
    verify_password p (get_password_hash p salt) = true ∧
    verify_password p (get_password_hash q salt) = false := by
  constructor
  · simp [verify_password, get_password_hash]
  · simp only [verify_password, get_password_hash, beq_eq_false_iff_ne, ne_eq,
      Prod.mk.injEq, true_and]
    exact fun h => hne h.symm

/-- C8, witness: the round-trip property at the two seeded credentials. -/
theorem c8_verify_hash_witness :
    verify_password (("admin123").data) (get_password_hash (("admin123").data) 7) = true ∧
    verify_password (("admin123").data) (get_password_hash (("user123").data) 7) = false :=
  c8_verify_hash (("admin123").data) (("user123").data) 7 (by decide)

/-! ## C9 -/

/-- C9: registering a username that is already present in the user table
returns failure and leaves the whole table — in particular the existing
record with its hashed password, email, full name and disabled flag —
unchanged.  (Usernames are unique keys by construction of the
dictionary-as-function model.) -/
theorem c9_register_existing (db : UsersDb)
    (username email password full_name : List Char) (salt : Nat)
    (h : (db username).isSome) :
    register db username email password full_name salt = (false, db) := by
  simp [register, h]

/-- C9, witness: re-registering `admin` over the seeded table fails and
leaves the table unchanged. -/
theorem c9_register_existing_witness :
    register dbW (("admin").data) (("x@example.com").data) (("pw").data)
      (("X").data) 2 = (false, dbW) :=
  c9_register_existing dbW (("admin").data) (("x@example.com").data)
    (("pw").data) (("X").data) 2 (by decide)

/-! ## C5 -/

/-- C5: storing a value and reading it back strictly after the entry's
effective TTL has elapsed reports absent and removes the entry from the
store, while reading it back strictly before expiry returns exactly the
stored value, unchanged. -/
theorem c5_cache_ttl {α : Type} (mc : MemoryCache α) (key : List Char) (v : PyVal α)
    (ttl : Option Nat) (now t2 t3 : ℚ)
    (h2 : now + (effTtl mc ttl : ℚ) < t2) (h3 : t3 < now + (effTtl mc ttl : ℚ)) :
    (((mc.set key v ttl now).get key t2).1 = .pynone ∧
      ((mc.set key v ttl now).get key t2).2.store key = none) ∧
    ((mc.set key v ttl now).get key t3).1 = v := by
  unfold MemoryCache.get MemoryCache.set
  simp only [if_pos rfl]
  refine ⟨⟨?_, ?_⟩, ?_⟩
  · simp [h2]
  · simp [h2]
  · simp [not_lt_of_gt h3, lt_asymm h3]

/-- C5, witness: the TTL behaviour at a concrete key, value and TTL. -/
theorem c5_cache_ttl_witness :
    (((mcEmptyW.set kW (.val 42) (some 10) 0).get kW 11).1 = .pynone ∧
      ((mcEmptyW.set kW (.val 42) (some 10) 0).get kW 11).2.store kW = none) ∧
    ((mcEmptyW.set kW (.val 42) (some 10) 0).get kW 5).1 = .val 42 :=
  c5_cache_ttl mcEmptyW kW (.val 42) (some 10) 0 11 5
    (by norm_num [effTtl, mcEmptyW]) (by norm_num [effTtl, mcEmptyW])

/-! ## C10 -/

/-- Helper: a `cached`-wrapped call on a key that is absent from the cache
executes the function, stores its result and reports it. -/
theorem cachedCall_miss {α : Type} (f : PyVal α) (mc : MemoryCache α) (key : List Char)
    (ttl : Option Nat) (now : ℚ) (h : mc.store key = none) :
    cachedCall f mc key ttl now = ⟨f, mc.set key f ttl now, true⟩ := by
  simp [cachedCall, MemoryCache.get, h]

/-- Helper: a `cached`-wrapped call on a key holding a stored Python `None`
executes the function again, whether or not the entry has expired. -/
theorem cachedCall_pynone_entry {α : Type} (f : PyVal α) (mc : MemoryCache α)
    (key : List Char) (ttl : Option Nat) (now exp : ℚ)
    (h : mc.store key = some ⟨.pynone, exp⟩) :
    (cachedCall f mc key ttl now).executed = true := by
  by_cases hx : now > exp <;> simp [cachedCall, MemoryCache.get, h, hx]

/-- C10: `MemoryCache.get` conflates absence with a stored `None` — it
reports `None` for a missing key, for an expired entry, and for a stored
`None` that has not expired — and consequently the `cached` decorator
executes the wrapped function on every call when the function's result is
`None`: the first call (on an empty key) executes and stores `None`, and the
next call executes again despite the stored entry. -/
theorem c10_none_never_cached {α : Type} (mc mcE mcN mcC : MemoryCache α)
    (key : List Char) (now nowE nowN t1 t2 : ℚ) (e : CacheEntry α) (exp : ℚ)
    (ttl : Option Nat)
    (hAbsent : mc.store key = none)
    (hE : mcE.store key = some e) (hEexp : nowE > e.expires_at)
    (hN : mcN.store key = some ⟨.pynone, exp⟩) (hNok : ¬ nowN > exp)
    (hC : mcC.store key = none) :
    (mc.get key now).1 = .pynone ∧
    (mcE.get key nowE).1 = .pynone ∧
    (mcN.get key nowN).1 = .pynone ∧
    (cachedCall .pynone mcC key ttl t1).executed = true ∧
    (cachedCall .pynone (cachedCall .pynone mcC key ttl t1).state key ttl t2).executed
      = true := by
  refine ⟨?_, ?_, ?_, ?_, ?_⟩
  · simp [MemoryCache.get, hAbsent]
  · simp [MemoryCache.get, hE, hEexp]
  · simp [MemoryCache.get, hN, hNok]
  · rw [cachedCall_miss _ _ _ _ _ hC]
  · rw [cachedCall_miss _ _ _ _ _ hC]
    exact cachedCall_pynone_entry _ _ _ _ _ (t1 + (effTtl mcC ttl : ℚ))
      (by simp [MemoryCache.set])

/-- C10, witness: the conflation evaluated on concrete caches and times. -/
theorem c10_none_never_cached_witness :
    (mcEmptyW.get kW 0).1 = .pynone ∧
    (mcExpW.get kW 20).1 = .pynone ∧
    (mcNoneW.get kW 5).1 = .pynone ∧
    (cachedCall .pynone mcEmptyW kW (some 3) 0).executed = true ∧
    (cachedCall .pynone (cachedCall .pynone mcEmptyW kW (some 3) 0).state kW
      (some 3) 1).executed = true :=
  c10_none_never_cached mcEmptyW mcExpW mcNoneW mcEmptyW kW 0 20 5 0 1
    ⟨.val 7, 10⟩ 10 (some 3) rfl rfl (by norm_num) rfl (by norm_num) rfl

/-! ## C6 -/

/-- C6, failing input: a checker with one probe `database` (interval 60
seconds) that last ran at time 0, queried at time 30: `check_health` neither
re-executes the probe (`last_check` stays at 0) nor includes any previously
computed result — the returned result set is empty, not a cached entry, even
though every probe function would return `True`. -/
theorem c6_check_health_skips_cached :
    (hcW.check_health envW 30).1 = [] ∧
    (hcW.check_health envW 30).2.last_check (("database").data) = some 0 := by
  constructor
  · simp [HealthChecker.check_health, hcW, checkLoop]
    norm_num
  · simp [HealthChecker.check_health, hcW, checkLoop]
    norm_num

/-! ## C7 -/

/-- C7, counterexample: a request to the health endpoint `/health` does not
bypass the rate limiter — `is_allowed` is consulted and the current timestamp
is recorded for the client — refuting the claim that every health path
bypasses the limiter entirely. -/
theorem c7_counterexample :
    ((rate_limit_middleware (initRL 60 1000) (("/health").data) ipW 5).2.minute_requests
      ipW) = [(5 : ℚ)] := by
  rw [rate_limit_middleware, if_neg (by decide)]
  simp [RateLimiter.is_allowed, RateLimiter.cleanup_old_requests, initRL]

/-- C7, amended: only requests whose path is exactly one of `/`, `/docs`,
`/openapi.json`, `/favicon.ico` bypass the rate limiter entirely —
`is_allowed` is not consulted and the limiter state is unchanged; other
paths, including `/health` and `/static/...`, go through the limiter. -/
theorem c7_bypass_paths (rl : RateLimiter) (path client_id : List Char) (now : ℚ)
    (h : path ∈ bypassPaths) :
    rate_limit_middleware rl path client_id now = (.skipped, rl) := by
  simp [rate_limit_middleware, h]

/-- C7, witness: the bypass on the `/docs` path. -/
theorem c7_bypass_paths_witness :
    rate_limit_middleware (initRL 60 1000) (("/docs").data) ipW 0 =
      (.skipped, initRL 60 1000) :=
  c7_bypass_paths (initRL 60 1000) (("/docs").data) ipW 0 (by decide)

/-! ## C3 -/

/-- Helper: when the separator is a prefix of the string, `split(sep, 1)`
splits off an empty head. -/
theorem splitOnce_front (sep s : List Char) (h : sep <+: s) :
    splitOnce sep s = some ([], s.drop sep.length) := by
  have hb : sep.isPrefixOf s := List.isPrefixOf_iff_prefix.mpr h
  cases s with
  | nil =>
    have : sep = [] := List.prefix_nil.mp h
    subst this
    simp [splitOnce]
  | cons c rest => simp [splitOnce, hb]

/-- Helper: a prefix no longer than another prefix of the same list is a
prefix of it. -/
theorem prefix_of_prefix_le (l₁ l₂ l₃ : List Char) (h1 : l₁ <+: l₃) (h2 : l₂ <+: l₃)
    (h : l₁.length ≤ l₂.length) : l₁ <+: l₂ :=
  List.prefix_of_prefix_length_le h1 h2 h

/-- Helper: `split(sep, 1)` splits at the marked occurrence of `sep` in
`pre ++ sep ++ post` provided no occurrence of `sep` starts earlier, which is
equivalent to `sep` not being an infix of `pre ++ sep` deprived of its last
character. -/
theorem splitOnce_at (sep : List Char) (hsep : sep ≠ []) :
    ∀ (pre post : List Char), ¬ sep <:+: (pre ++ sep).dropLast →
      splitOnce sep (pre ++ sep ++ post) = some (pre, post)
  | [], post, _ => by
    rw [List.nil_append, splitOnce_front sep (sep ++ post) (List.prefix_append sep post),
      List.drop_left]
  | c :: pre, post, h => by
    have hne : pre ++ sep ≠ [] := by
      intro hx
      exact hsep (List.append_eq_nil.mp hx).2
    have hdl : ((c :: pre) ++ sep).dropLast = c :: (pre ++ sep).dropLast := by
      rw [List.cons_append, List.dropLast_cons_of_ne_nil hne]
    by_cases hp : sep.isPrefixOf (c :: (pre ++ sep ++ post))
    · exfalso
      apply h
      rw [hdl]
      have hpre : sep <+: (c :: pre) ++ sep ++ post := by
        rw [List.cons_append]
        exact List.isPrefixOf_iff_prefix.mp hp
      have hpre2 : ((c :: pre) ++ sep).dropLast <+: (c :: pre) ++ sep ++ post :=
        (List.dropLast_prefix _).trans (List.prefix_append _ _)
      have hlen : sep.length ≤ (((c :: pre) ++ sep).dropLast).length := by
        rw [List.length_dropLast, List.length_append, List.length_cons]
        omega
      have := prefix_of_prefix_le sep (((c :: pre) ++ sep).dropLast) _ hpre hpre2 hlen
      rw [hdl] at this
      exact this.isInfix
    · have hrec : splitOnce sep (pre ++ sep ++ post) = some (pre, post) := by
        apply splitOnce_at sep hsep pre post
        intro hinf
        apply h
        rw [hdl]
        exact List.infix_cons hinf
      show splitOnce sep ((c :: pre) ++ sep ++ post) = some (c :: pre, post)
      rw [List.cons_append, List.cons_append, splitOnce, if_neg hp]
      rw [hrec]
      rfl

/-- Helper: a string with no leading and no trailing whitespace is unchanged
by `strip()`. -/
theorem pyStrip_eq_self (X : List Char) (hl : X.dropWhile pyIsSpace = X)
    (hr : pyRstripWs X = X) : pyStrip X = X := by
  unfold pyStrip pyLstripWs
  rw [hl, hr]

/-- Helper: a single leading space is removed by `strip()`. -/
theorem pyStrip_space_cons (X : List Char) (hl : X.dropWhile pyIsSpace = X)
    (hr : pyRstripWs X = X) : pyStrip (' ' :: X) = X := by
  have h1 : pyStrip (' ' :: X) = pyStrip X := rfl
  rw [h1, pyStrip_eq_self X hl hr]

/-- Helper: a string unchanged by whitespace stripping and by
`lstrip('*# ')` is unchanged by the field cleanup of lines 121-123. -/
theorem cleanupField_eq_self (X : List Char) (hl : X.dropWhile pyIsSpace = X)
    (hr : pyRstripWs X = X) (hm : X.dropWhile (fun c => markChars.contains c) = X) :
    cleanupField X = X := by
  unfold cleanupField pyLstripChars
  rw [pyStrip_eq_self X hl hr, hm, pyStrip_eq_self X hl hr]

/-- Helper: when `X` contains no newline, the newline separator occurs
nowhere in `' ' :: X`. -/
theorem no_newline_occurs (X : List Char) (hX : '\n' ∉ X) :
    ¬ ['\n'] <:+: ((' ' :: X) ++ ['\n']).dropLast := by
  rw [List.dropLast_concat]
  intro hinf
  have hmem : '\n' ∈ ' ' :: X := hinf.subset (by simp)
  simp at hmem
  exact hX hmem

/-- Helper: `split("\n", 1)[0]` recovers the first line when the tail follows
the first newline. -/
theorem splitFirstLine_at (X tail : List Char) (hX : '\n' ∉ X) :
    splitFirstLine ((' ' :: X) ++ ['\n'] ++ tail) = ' ' :: X := by
  unfold splitFirstLine
  rw [splitOnce_at ['\n'] (by decide) (' ' :: X) tail (no_newline_occurs X hX)]

/-- C3, counterexample: the claim quantifies over all strings `X, Y, Z`, but
for `X = "*A"` the parser returns title `"A"`: the leading `*` is removed by
the cleanup `lstrip('*# ')`, so the parsed result is not exactly
`{title: X, meta_description: Y, post_content: Z}`. -/
theorem c3_counterexample :
    parse_post_fields (postTemplate (("*A").data) (("B").data) (("C").data)) =
      ((("A").data), (("B").data), (("C").data)) ∧
    (("A").data) ≠ (("*A").data) := by
  constructor
  · decide
  · decide

/-- C3, amended: for all strings `X, Y, Z` such that `X` and `Y` contain no
newline, each of `X, Y, Z` is unchanged by whitespace stripping and does not
begin with one of `*`, `#`, ` ` (the parser strips these), and the labels
`Мета-описание:` and `Контент:` do not occur in the response text before
their intended position, parsing the response
`Заголовок: X\nМета-описание: Y\nКонтент: Z` yields exactly
`title = X`, `meta_description = Y`, `post_content = Z`. -/
theorem c3_parse_labeled_response (X Y Z : List Char)
    (hXn : '\n' ∉ X) (hYn : '\n' ∉ Y)
    (hXl : X.dropWhile pyIsSpace = X) (hXr : pyRstripWs X = X)
    (hYl : Y.dropWhile pyIsSpace = Y) (hYr : pyRstripWs Y = Y)
    (hZl : Z.dropWhile pyIsSpace = Z) (hZr : pyRstripWs Z = Z)
    (hXm : X.dropWhile (fun c => markChars.contains c) = X)
    (hYm : Y.dropWhile (fun c => markChars.contains c) = Y)
    (hZm : Z.dropWhile (fun c => markChars.contains c) = Z)
    (hM : ¬ metaLabel <:+: (titlePre X ++ metaLabel).dropLast)
    (hK : ¬ contentLabel <:+: (metaPre X Y ++ contentLabel).dropLast) :
    parse_post_fields (postTemplate X Y Z) = (X, Y, Z) := by
  have htitle : extractLabeled titleLabel (postTemplate X Y Z) = X := by
    unfold extractLabeled
    rw [show postTemplate X Y Z = titleLabel ++
      ((' ' :: X) ++ ['\n'] ++ (metaLabel ++ [' '] ++ Y ++ ['\n'] ++ contentLabel ++ [' '] ++ Z))
      from by simp [postTemplate, List.append_assoc]]
    rw [splitOnce_front titleLabel _ (List.prefix_append _ _), List.drop_left]
    simp only
    rw [splitFirstLine_at X _ hXn, pyStrip_space_cons X hXl hXr]
  have hmeta : extractLabeled metaLabel (postTemplate X Y Z) = Y := by
    unfold extractLabeled
    rw [show postTemplate X Y Z = titlePre X ++ metaLabel ++
      ((' ' :: Y) ++ ['\n'] ++ (contentLabel ++ [' '] ++ Z))
      from by simp [postTemplate, titlePre, List.append_assoc]]
    rw [splitOnce_at metaLabel (by decide) (titlePre X) _ hM]
    simp only
    rw [splitFirstLine_at Y _ hYn, pyStrip_space_cons Y hYl hYr]
  have hcont : extractToEnd contentLabel (postTemplate X Y Z) = Z := by
    unfold extractToEnd
    rw [show postTemplate X Y Z = metaPre X Y ++ contentLabel ++ (' ' :: Z)
      from by simp [postTemplate, titlePre, metaPre, List.append_assoc]]
    rw [splitOnce_at contentLabel (by decide) (metaPre X Y) _ hK]
    simp only
    rw [pyStrip_space_cons Z hZl hZr]
  unfold parse_post_fields
  rw [htitle, hmeta, hcont,
    cleanupField_eq_self X hXl hXr hXm,
    cleanupField_eq_self Y hYl hYr hYm,
    cleanupField_eq_self Z hZl hZr hZm]

/-- C3, witness: the parse on concrete clean payload strings, with a
multi-line body. -/
theorem c3_parse_labeled_response_witness :
    parse_post_fields
      (postTemplate (("T1").data) (("M2").data) (("C1\nC2").data)) =
      ((("T1").data), (("M2").data), (("C1\nC2").data)) :=
  c3_parse_labeled_response (("T1").data) (("M2").data) (("C1\nC2").data)
    (by decide) (by decide) (by decide) (by decide) (by decide) (by decide)
    (by decide) (by decide) (by decide) (by decide) (by decide)
    (by decide) (by decide)

/-! ## C4 -/

/-- Helper: when both window counts after cleanup are below their ceilings,
`is_allowed` grants the request and appends the timestamp to both windows,
preserving the configured ceilings. -/
theorem is_allowed_true (rl : RateLimiter) (client : List Char) (now : ℚ)
    (hm : ((rl.minute_requests client).filter (fun t => now - t < 60)).length
      < rl.requests_per_minute)
    (hh : ((rl.hour_requests client).filter (fun t => now - t < 3600)).length
      < rl.requests_per_hour) :
    (rl.is_allowed client now).allowed = true ∧
    (rl.is_allowed client now).state.minute_requests client
      = (rl.minute_requests client).filter (fun t => now - t < 60) ++ [now] ∧
    (rl.is_allowed client now).state.hour_requests client
      = (rl.hour_requests client).filter (fun t => now - t < 3600) ++ [now] ∧
    (rl.is_allowed client now).state.requests_per_minute = rl.requests_per_minute ∧
    (rl.is_allowed client now).state.requests_per_hour = rl.requests_per_hour := by
  unfold RateLimiter.is_allowed RateLimiter.cleanup_old_requests
  simp [hm, hh]

/-- Helper: when a window count after cleanup reaches its ceiling,
`is_allowed` denies the request and leaves only the cleaned-up lists,
preserving the configured ceilings. -/
theorem is_allowed_false (rl : RateLimiter) (client : List Char) (now : ℚ)
    (h : ¬ (((rl.minute_requests client).filter (fun t => now - t < 60)).length
        < rl.requests_per_minute ∧
      ((rl.hour_requests client).filter (fun t => now - t < 3600)).length
        < rl.requests_per_hour)) :
    (rl.is_allowed client now).allowed = false ∧
    (rl.is_allowed client now).state.minute_requests client
      = (rl.minute_requests client).filter (fun t => now - t < 60) ∧
    (rl.is_allowed client now).state.hour_requests client
      = (rl.hour_requests client).filter (fun t => now - t < 3600) ∧
    (rl.is_allowed client now).state.requests_per_minute = rl.requests_per_minute ∧
    (rl.is_allowed client now).state.requests_per_hour = rl.requests_per_hour := by
  unfold RateLimiter.is_allowed RateLimiter.cleanup_old_requests
  simp [h]

/-- Helper: starting from a state holding the already-accepted timestamps
`acc`, a sequence of calls whose times all fall within the minute window of
one another — with room left under both ceilings — is entirely granted, and
the final state holds `acc ++ ts` in both windows. -/
theorem runCalls_spec (client : List Char) :
    ∀ (ts acc : List ℚ) (rl : RateLimiter),
      rl.minute_requests client = acc →
      rl.hour_requests client = acc →
      acc.length + ts.length ≤ rl.requests_per_minute →
      acc.length + ts.length ≤ rl.requests_per_hour →
      (∀ t ∈ acc, ∀ u ∈ ts, u - t < 60) →
      ts.Pairwise (fun a b => b - a < 60) →
      (runCalls rl client ts).1 = List.replicate ts.length true ∧
      (runCalls rl client ts).2.minute_requests client = acc ++ ts ∧
      (runCalls rl client ts).2.hour_requests client = acc ++ ts ∧
      (runCalls rl client ts).2.requests_per_minute = rl.requests_per_minute ∧
      (runCalls rl client ts).2.requests_per_hour = rl.requests_per_hour
  | [], acc, rl => by
    intro h1 h2 _ _ _ _
    simp [runCalls, h1, h2]
  | u :: ts, acc, rl => by
    intro h1 h2 hlenM hlenH hPA hPT
    have hfm : (rl.minute_requests client).filter (fun t => u - t < 60) = acc := by
      rw [h1]
      apply List.filter_eq_self.mpr
      intro t ht
      exact decide_eq_true (hPA t ht u (by simp))
    have hfh : (rl.hour_requests client).filter (fun t => u - t < 3600) = acc := by
      rw [h2]
      apply List.filter_eq_self.mpr
      intro t ht
      exact decide_eq_true (lt_trans (hPA t ht u (by simp)) (by norm_num))
    have hm : ((rl.minute_requests client).filter (fun t => u - t < 60)).length
        < rl.requests_per_minute := by
      rw [hfm]
      simp only [List.length_cons] at hlenM
      omega
    have hh : ((rl.hour_requests client).filter (fun t => u - t < 3600)).length
        < rl.requests_per_hour := by
      rw [hfh]
      simp only [List.length_cons] at hlenH
      omega
    obtain ⟨ha, hsm, hsh, hcm, hch⟩ := is_allowed_true rl client u hm hh
    rw [hfm] at hsm
    rw [hfh] at hsh
    obtain ⟨hpt1, hpt2⟩ := List.pairwise_cons.mp hPT
    have hlenMIH : (acc ++ [u]).length + ts.length
        ≤ (rl.is_allowed client u).state.requests_per_minute := by
      rw [hcm]
      simp only [List.length_append, List.length_singleton, List.length_cons,
        List.length_nil] at hlenM ⊢
      omega
    have hlenHIH : (acc ++ [u]).length + ts.length
        ≤ (rl.is_allowed client u).state.requests_per_hour := by
      rw [hch]
      simp only [List.length_append, List.length_singleton, List.length_cons,
        List.length_nil] at hlenH ⊢
      omega
    have IH := runCalls_spec client ts (acc ++ [u]) (rl.is_allowed client u).state
      hsm hsh hlenMIH hlenHIH
      (by
        intro t ht v hv
        rcases List.mem_append.mp ht with htl | htr
        · exact hPA t htl v (List.mem_cons_of_mem u hv)
        · rw [List.mem_singleton.mp htr]
          exact hpt1 v hv)
      hpt2
    obtain ⟨i1, i2, i3, i4, i5⟩ := IH
    refine ⟨?_, ?_, ?_, ?_, ?_⟩
    · show ((rl.is_allowed client u).allowed :: (runCalls (rl.is_allowed client u).state client ts).1)
        = List.replicate (ts.length + 1) true
      rw [ha, i1, List.replicate_succ]
    · show (runCalls (rl.is_allowed client u).state client ts).2.minute_requests client
        = acc ++ u :: ts
      rw [i2]
      simp
    · show (runCalls (rl.is_allowed client u).state client ts).2.hour_requests client
        = acc ++ u :: ts
      rw [i3]
      simp
    · show (runCalls (rl.is_allowed client u).state client ts).2.requests_per_minute
        = rl.requests_per_minute
      rw [i4, hcm]
    · show (runCalls (rl.is_allowed client u).state client ts).2.requests_per_hour
        = rl.requests_per_hour
      rw [i5, hch]

/-- C4: for each of the two windows, on a fresh limiter: (minute window,
ceiling `M`, hour ceiling `H > M`) a client making `M` requests inside 60
seconds is granted all `M`; the `(M+1)`-th call still inside the window is
denied; a call at least 60 seconds past every recorded timestamp is granted
again.  (Hour window, ceiling `H2`, minute ceiling `M2 > H2`) `H2` granted
requests, denial of the `(H2+1)`-th inside the window, and a grant again at
least 3600 seconds past every recorded timestamp.  Finally, the counts
`is_allowed` consults never include timestamps older than the window length:
`_cleanup_old_requests` retains exactly the timestamps inside each window. -/
theorem c4_sliding_window (M H : Nat) (client : List Char) (ts : List ℚ) (tN T : ℚ)
    (M2 H2 : Nat) (ts2 : List ℚ) (tN2 T2 : ℚ)
    (rlX : RateLimiter) (nowX : ℚ)
    (hM1 : 1 ≤ M) (hMH : M < H) (hlen : ts.length = M)
    (hPT : ts.Pairwise (fun a b => b - a < 60))
    (hN : ∀ t ∈ ts, tN - t < 60)
    (hT : ∀ t ∈ ts, 60 ≤ T - t)
    (hH2 : 1 ≤ H2) (hHM2 : H2 < M2) (hlen2 : ts2.length = H2)
    (hPT2 : ts2.Pairwise (fun a b => b - a < 60))
    (hN2 : ∀ t ∈ ts2, tN2 - t < 60)
    (hT2 : ∀ t ∈ ts2, 3600 ≤ T2 - t) :
    (runCalls (initRL M H) client ts).1 = List.replicate M true ∧
    ((runCalls (initRL M H) client ts).2.is_allowed client tN).allowed = false ∧
    (((runCalls (initRL M H) client ts).2.is_allowed client tN).state.is_allowed
      client T).allowed = true ∧
    (runCalls (initRL M2 H2) client ts2).1 = List.replicate H2 true ∧
    ((runCalls (initRL M2 H2) client ts2).2.is_allowed client tN2).allowed = false ∧
    (((runCalls (initRL M2 H2) client ts2).2.is_allowed client tN2).state.is_allowed
      client T2).allowed = true ∧
    (rlX.cleanup_old_requests client nowX).minute_requests client
      = (rlX.minute_requests client).filter (fun t => nowX - t < 60) ∧
    (rlX.cleanup_old_requests client nowX).hour_requests client
      = (rlX.hour_requests client).filter (fun t => nowX - t < 3600) := by
  obtain ⟨r1, r2, r3, r4, r5⟩ := runCalls_spec client ts [] (initRL M H) rfl rfl
    (by simp [initRL, hlen]) (by simp [initRL, hlen]; omega) (by simp) hPT
  simp only [List.nil_append] at r2 r3
  set base := (runCalls (initRL M H) client ts).2 with hbase
  have rM : base.requests_per_minute = M := r4.trans rfl
  have rH : base.requests_per_hour = H := r5.trans rfl
  have hfmN : (base.minute_requests client).filter (fun t => tN - t < 60) = ts := by
    rw [r2]
    apply List.filter_eq_self.mpr
    intro t ht
    exact decide_eq_true (hN t ht)
  have hfhN : (base.hour_requests client).filter (fun t => tN - t < 3600) = ts := by
    rw [r3]
    apply List.filter_eq_self.mpr
    intro t ht
    exact decide_eq_true (lt_trans (hN t ht) (by norm_num))
  have hcond : ¬ (((base.minute_requests client).filter (fun t => tN - t < 60)).length
        < base.requests_per_minute ∧
      ((base.hour_requests client).filter (fun t => tN - t < 3600)).length
        < base.requests_per_hour) := by
    rw [hfmN, hlen, rM]
    intro hx
    exact absurd hx.1 (lt_irrefl M)
  obtain ⟨d1, d2, d3, d4, d5⟩ := is_allowed_false base client tN hcond
  rw [hfmN] at d2
  rw [hfhN] at d3
  set denied := (base.is_allowed client tN).state with hdenied
  have hfmT : (denied.minute_requests client).filter (fun t => T - t < 60) = [] := by
    rw [d2]
    apply List.filter_eq_nil_iff.mpr
    intro t ht
    simp only [decide_eq_true_eq, not_lt]
    exact hT t ht
  have hmT : ((denied.minute_requests client).filter (fun t => T - t < 60)).length
      < denied.requests_per_minute := by
    rw [hfmT, d4, rM]
    simpa using hM1
  have hhT : ((denied.hour_requests client).filter (fun t => T - t < 3600)).length
      < denied.requests_per_hour := by
    rw [d5, rH]
    calc ((denied.hour_requests client).filter (fun t => T - t < 3600)).length
        ≤ (denied.hour_requests client).length := List.length_filter_le _ _
      _ = M := by rw [d3, hlen]
      _ < H := hMH
  obtain ⟨s1, s2, s3, s4, s5⟩ := runCalls_spec client ts2 [] (initRL M2 H2) rfl rfl
    (by simp [initRL, hlen2]; omega) (by simp [initRL, hlen2]) (by simp) hPT2
  simp only [List.nil_append] at s2 s3
  set base2 := (runCalls (initRL M2 H2) client ts2).2 with hbase2
  have rM2 : base2.requests_per_minute = M2 := s4.trans rfl
  have rH2 : base2.requests_per_hour = H2 := s5.trans rfl
  have hfmN2 : (base2.minute_requests client).filter (fun t => tN2 - t < 60) = ts2 := by
    rw [s2]
    apply List.filter_eq_self.mpr
    intro t ht
    exact decide_eq_true (hN2 t ht)
  have hfhN2 : (base2.hour_requests client).filter (fun t => tN2 - t < 3600) = ts2 := by
    rw [s3]
    apply List.filter_eq_self.mpr
    intro t ht
    exact decide_eq_true (lt_trans (hN2 t ht) (by norm_num))
  have hcond2 : ¬ (((base2.minute_requests client).filter (fun t => tN2 - t < 60)).length
        < base2.requests_per_minute ∧
      ((base2.hour_requests client).filter (fun t => tN2 - t < 3600)).length
        < base2.requests_per_hour) := by
    rw [hfhN2, hlen2, rH2]
    intro hx
    exact absurd hx.2 (lt_irrefl H2)
  obtain ⟨e1, e2, e3, e4, e5⟩ := is_allowed_false base2 client tN2 hcond2
  rw [hfmN2] at e2
  rw [hfhN2] at e3
  set denied2 := (base2.is_allowed client tN2).state with hdenied2
  have hfmT2 : (denied2.minute_requests client).filter (fun t => T2 - t < 60) = [] := by
    rw [e2]
    apply List.filter_eq_nil_iff.mpr
    intro t ht
    simp only [decide_eq_true_eq, not_lt]
    exact le_trans (by norm_num) (hT2 t ht)
  have hmT2 : ((denied2.minute_requests client).filter (fun t => T2 - t < 60)).length
      < denied2.requests_per_minute := by
    rw [hfmT2, e4, rM2]
    simp only [List.length_nil]
    omega
  have hfhT2 : (denied2.hour_requests client).filter (fun t => T2 - t < 3600) = [] := by
    rw [e3]
    apply List.filter_eq_nil_iff.mpr
    intro t ht
    simp only [decide_eq_true_eq, not_lt]
    exact hT2 t ht
  have hhT2 : ((denied2.hour_requests client).filter (fun t => T2 - t < 3600)).length
      < denied2.requests_per_hour := by
    rw [hfhT2, e5, rH2]
    simpa using hH2
  refine ⟨by rw [r1, hlen], d1, (is_allowed_true denied client T hmT hhT).1,
    by rw [s1, hlen2], e1, (is_allowed_true denied2 client T2 hmT2 hhT2).1, ?_, ?_⟩
  · simp [RateLimiter.cleanup_old_requests]
  · simp [RateLimiter.cleanup_old_requests]

/-- C4, witness: the minute-window behaviour with ceilings 2/5 (grants at
times 0 and 1, denial at 2, grant again at 70), the hour-window behaviour
with ceilings 5/2 (grants at 0 and 1, denial at 2, grant again at 4000), and
the cleanup projection on a limiter holding a stale timestamp. -/
theorem c4_sliding_window_witness :
    (runCalls (initRL 2 5) ipW [0, 1]).1 = List.replicate 2 true ∧
    ((runCalls (initRL 2 5) ipW [0, 1]).2.is_allowed ipW 2).allowed = false ∧
    (((runCalls (initRL 2 5) ipW [0, 1]).2.is_allowed ipW 2).state.is_allowed
      ipW 70).allowed = true ∧
    (runCalls (initRL 5 2) ipW [0, 1]).1 = List.replicate 2 true ∧
    ((runCalls (initRL 5 2) ipW [0, 1]).2.is_allowed ipW 2).allowed = false ∧
    (((runCalls (initRL 5 2) ipW [0, 1]).2.is_allowed ipW 2).state.is_allowed
      ipW 4000).allowed = true ∧
    (rlStaleW.cleanup_old_requests ipW 0).minute_requests ipW
      = (rlStaleW.minute_requests ipW).filter (fun t => (0 : ℚ) - t < 60) ∧
    (rlStaleW.cleanup_old_requests ipW 0).hour_requests ipW
      = (rlStaleW.hour_requests ipW).filter (fun t => (0 : ℚ) - t < 3600) :=
  c4_sliding_window 2 5 ipW [0, 1] 2 70 5 2 [0, 1] 2 4000 rlStaleW 0
    (by decide) (by decide) rfl
    (by norm_num [List.pairwise_cons])
    (by intro t ht; fin_cases ht <;> norm_num)
    (by intro t ht; fin_cases ht <;> norm_num)
    (by decide) (by decide) rfl
    (by norm_num [List.pairwise_cons])
    (by intro t ht; fin_cases ht <;> norm_num)
    (by intro t ht; fin_cases ht <;> norm_num)
